import Mathlib

/-!
Verification of the CorpoAI conversation-context assembly and budgeting engine
(`app/clients/llm/context_manager.py` together with the value objects of
`app/schemas/context.py`), as a shallow embedding in Lean.

Modelling conventions:
* Python `int` is `Int`; the token-estimation ratio (a Python `float` used
  only through multiplication by a length and truncation to `int`) is an
  exact rational `Rat`; `int(x)` is truncation toward zero (`pyInt`).
* UUIDs are opaque identifiers, modelled as `Nat`.
* Python `Optional[str]` is `Option String`; the truthiness test `if s:` on
  such a value is `strTruthy` (false exactly for `None` and the empty string).
* The LLM client's `generate` call, the one fallible external effect, is a
  parameter `gen : String → Except Unit String` mapping the prompt either to
  generated content or to a raised exception.
* Functions of the source that can propagate a Python exception are embedded
  in `Except PyErr`; `PyErr.typeError` stands for a raised `TypeError`.
  In `ContextManager._reduce_context` the source calls the three-parameter
  method `_assemble_messages(self, history, summary, rag_context)` with four
  positional arguments (lines 111 and 125 pass `new_message` as well), which
  in Python raises `TypeError` before a result is built; the embedding
  returns `Except.error PyErr.typeError` at exactly those two points.
* Configuration read from `settings` (`MESSAGE_OVERHEAD_TOKENS`,
  `DEFAULT_TOKENS_PER_CHAR`, `LLM_MAX_CONTEXT_LENGTH`) and from the LLM
  client (`system_prompt`, the summarizer prompt template) is carried as
  fields of the `ContextManager` record.
-/

namespace CorpoAI

/-- Message roles, from `app.core.enums.MessageRoleTypes`. -/
inductive MessageRole where
  | user
  | assistant
  | system
deriving DecidableEq, Repr

/-- A message in LLM format, from `app.schemas.context.LLMMessage`. -/
structure LLMMessage where
  role : MessageRole
  content : String
deriving DecidableEq, Repr

/-- `LLMMessage.system` classmethod: create a system message. -/
def LLMMessage.mkSystem (content : String) : LLMMessage :=
  { role := MessageRole.system, content := content }

/-- A stored message record as the extractor sees it: `id`, `role`, `content`
(the session store's `Message`, read-only to the core). -/
structure Message where
  id : Nat
  role : MessageRole
  content : String
deriving DecidableEq, Repr

/-- `app.schemas.context.UnsummarizedMessages`. -/
structure UnsummarizedMessages where
  messages : List LLMMessage
  message_ids : List Nat
deriving DecidableEq, Repr

/-- `app.schemas.context.ContextBudget` (data fields; the derived properties
follow as definitions). -/
structure ContextBudget where
  max_tokens : Int
  reserved_output : Int
  system_prompt_tokens : Int := 0
  summary_tokens : Int := 0
  history_tokens : Int := 0
  new_message_tokens : Int := 0
  rag_context_tokens : Int := 0
  tools_tokens : Int := 0
deriving DecidableEq, Repr

/-- `ContextBudget.available_for_input` property. -/
def ContextBudget.available_for_input (b : ContextBudget) : Int :=
  b.max_tokens - b.reserved_output

/-- `ContextBudget.total_used` property: sum of all six component counts. -/
def ContextBudget.total_used (b : ContextBudget) : Int :=
  b.system_prompt_tokens + b.summary_tokens + b.history_tokens
    + b.new_message_tokens + b.rag_context_tokens + b.tools_tokens

/-- `ContextBudget.is_over_budget` property. -/
def ContextBudget.is_over_budget (b : ContextBudget) : Bool :=
  decide (b.available_for_input < b.total_used)

/-- `app.schemas.context.ContextResult` (defaults as in the pydantic model). -/
structure ContextResult where
  messages : List LLMMessage
  budget : Option ContextBudget := none
  needs_summary_update : Bool := false
  new_summary : Option String := none
  summary_up_to_message_id : Option Nat := none
deriving DecidableEq, Repr

/-- A raised Python exception that escapes the core. -/
inductive PyErr where
  | typeError
deriving DecidableEq, Repr

/-- Python truthiness of an `Optional[str]`: `None` and `""` are falsy. -/
def strTruthy : Option String → Bool
  | none => false
  | some s => decide (s ≠ "")

/-- Python `int()` applied to a rational: truncation toward zero. -/
def pyInt (q : Rat) : Int :=
  if q < 0 then q.ceil else q.floor

/-- Python `s.split("\\n")[0]`: the prefix of `s` before its first newline
(the whole string when it has none). -/
def pyFirstLine (s : String) : String :=
  String.mk (s.data.takeWhile (fun c => c ≠ Char.ofNat 10))

/-- Python slice `l[:-k]` for a nonnegative `k`. -/
def pySliceDropLast {α : Type} (l : List α) (k : Nat) : List α :=
  if k = 0 then [] else l.take (l.length - k)

/-- Python slice `l[-k:]` for a nonnegative `k`. -/
def pySliceLast {α : Type} (l : List α) (k : Nat) : List α :=
  if k = 0 then l else l.drop (l.length - k)

/-- Configuration of `ContextManager` (constructor arguments plus the
`settings` constants and LLM-client texts it reads). -/
structure ContextManager where
  max_tokens : Int
  reserved_output : Int
  tokens_per_char : Rat
  keep_recent : Nat
  message_overhead : Int
  system_prompt : String
  summarizer_prompt : String

/-- `ContextManager._estimate_tokens`: `int(len(text) * tokens_per_char) if text else 0`. -/
def ContextManager.estimate_tokens (cm : ContextManager) : Option String → Int
  | none => 0
  | some s => if s = "" then 0 else pyInt ((s.length : Rat) * cm.tokens_per_char)

/-- `ContextManager._calculate_budget`. -/
def ContextManager.calculate_budget (cm : ContextManager) (history : List LLMMessage)
    (new_message : String) (summary rag_context : Option String) : ContextBudget :=
  { max_tokens := cm.max_tokens
    reserved_output := cm.reserved_output
    system_prompt_tokens := cm.estimate_tokens (some cm.system_prompt)
    history_tokens :=
      (history.map (fun m => cm.estimate_tokens (some m.content) + cm.message_overhead)).sum
    new_message_tokens := cm.estimate_tokens (some new_message) + cm.message_overhead
    summary_tokens :=
      if strTruthy summary then cm.estimate_tokens summary + cm.message_overhead else 0
    rag_context_tokens :=
      if strTruthy rag_context then cm.estimate_tokens rag_context + cm.message_overhead else 0 }

/-- `ContextManager._assemble_messages` (the three-parameter method). -/
def assemble_messages (history : List LLMMessage) (summary rag_context : Option String) :
    List LLMMessage :=
  (if strTruthy summary then
    [LLMMessage.mkSystem ("[Conversation summary]\n" ++ summary.getD "")] else [])
  ++ (if strTruthy rag_context then
    [LLMMessage.mkSystem ("[Document context]\n" ++ rag_context.getD "")] else [])
  ++ history

/-- Loop body of `ContextManager._fit_to_budget`: walk the reversed history,
accumulating cost, prepending each message that still fits. -/
def fitAux (cm : ContextManager) (available : Int) :
    List LLMMessage → Int → List LLMMessage → List LLMMessage
  | [], _, result => result
  | msg :: rest, used, result =>
    let tokens := cm.estimate_tokens (some msg.content) + cm.message_overhead
    if available < used + tokens then result
    else fitAux cm available rest (used + tokens) (msg :: result)

/-- `ContextManager._fit_to_budget`. -/
def ContextManager.fit_to_budget (cm : ContextManager) (messages : List LLMMessage)
    (available : Int) : List LLMMessage :=
  fitAux cm available messages.reverse 0 []

/-- The summarization prompt built in `ContextManager._generate_summary`
before the LLM call. -/
def summaryPrompt (cm : ContextManager) (messages : List LLMMessage)
    (existing : Option String) : String :=
  let parts :=
    (if strTruthy existing then ["[Previous summary]: " ++ existing.getD "" ++ "\n"] else [])
    ++ ["[Conversation]:"]
    ++ messages.map (fun m =>
        (if m.role = MessageRole.user then "User" else "Assistant") ++ ": " ++ m.content)
  cm.summarizer_prompt ++ "\n\n---\n\n" ++ String.intercalate "\n" parts

/-- `ContextManager._generate_summary`: on success the stripped LLM content,
on any raised exception the deterministic fallback built in the handler. -/
def ContextManager.generate_summary (cm : ContextManager) (gen : String → Except Unit String)
    (messages : List LLMMessage) (existing : Option String) : String :=
  match gen (summaryPrompt cm messages existing) with
  | Except.ok content => content.trim
  | Except.error _ =>
    let user_topics :=
      (messages.filter (fun m => m.role = MessageRole.user)).map
        (fun m => (pyFirstLine m.content).take 80)
    let fallback :=
      if user_topics.isEmpty then ""
      else "Temas: " ++ String.intercalate "; " (user_topics.take 3)
    if strTruthy existing then existing.getD "" ++ " | " ++ fallback else fallback

/-- `ContextManager._reduce_context`. Both branches end at the source's call
of the three-parameter `_assemble_messages` with four positional arguments
(`fitted`/`recent`, `new_message`, the summary, `rag_context`), which raises
`TypeError` in Python; the embedding therefore returns that error after
performing the work the source performs before the call. -/
def ContextManager.reduce_context (cm : ContextManager) (gen : String → Except Unit String)
    (history : List LLMMessage) (message_ids : List Nat) (new_message : String)
    (summary rag_context : Option String) (budget : ContextBudget) :
    Except PyErr ContextResult :=
  let min_for_summary := cm.keep_recent + 2
  if history.length < min_for_summary then
    let available := budget.available_for_input - budget.system_prompt_tokens
      - budget.summary_tokens - budget.new_message_tokens - budget.rag_context_tokens
    let _fitted := cm.fit_to_budget history available
    Except.error PyErr.typeError
  else
    let keep := min cm.keep_recent (history.length - 2)
    let to_summarize := pySliceDropLast history keep
    let _recent := pySliceLast history keep
    let _ids_summarized := pySliceDropLast message_ids keep
    let _new_summary := cm.generate_summary gen to_summarize summary
    Except.error PyErr.typeError

/-- `ContextManager.build_context`. -/
def ContextManager.build_context (cm : ContextManager) (gen : String → Except Unit String)
    (unsummarized : UnsummarizedMessages) (new_message : String)
    (current_summary rag_context : Option String) : Except PyErr ContextResult :=
  let history := unsummarized.messages
  let message_ids := unsummarized.message_ids
  let budget := cm.calculate_budget history new_message current_summary rag_context
  if budget.is_over_budget = false then
    Except.ok { messages := assemble_messages history current_summary rag_context
                budget := some budget }
  else
    cm.reduce_context gen history message_ids new_message current_summary rag_context budget

/-- The scan of the source's `for … if msg.id == summary_up_to_id: … break`
loop: the suffix strictly after the first message carrying the wanted id,
or `none` when no message carries it (the loop's `else` branch). -/
def dropThroughId (uid : Nat) : List Message → Option (List Message)
  | [] => none
  | m :: rest => if m.id = uid then some rest else dropThroughId uid rest

/-- `ContextManager.extract_unsummarized`. -/
def extract_unsummarized (all_messages : List Message) (summary_up_to_id : Option Nat) :
    UnsummarizedMessages :=
  let messages :=
    match summary_up_to_id with
    | none => all_messages
    | some uid => (dropThroughId uid all_messages).getD all_messages
  { messages := messages.map (fun m => { role := m.role, content := m.content })
    message_ids := messages.map Message.id }

/-- The fallback summary exactly as claim C8 words it: built from the first
line (truncated to the 80-character cap) of EACH user-authored message in the
batch, joined with the separator, appended to the existing summary when one is
present. Stated from the claim for comparison with the code, which instead
keeps only the first three user topics. -/
def claimFallbackAllUsers (messages : List LLMMessage) (existing : Option String) : String :=
  let user_topics :=
    (messages.filter (fun m => m.role = MessageRole.user)).map
      (fun m => (pyFirstLine m.content).take 80)
  let fallback :=
    if user_topics.isEmpty then ""
    else "Temas: " ++ String.intercalate "; " user_topics
  if strTruthy existing then existing.getD "" ++ " | " ++ fallback else fallback

/-- The deterministic fallback the code actually builds in the exception
handler of `_generate_summary`: first line (80-character cap) of each of at
most the first three user-authored messages, joined with the separator,
appended to the existing summary when present. -/
def fallbackFirstThree (messages : List LLMMessage) (existing : Option String) : String :=
  let user_topics :=
    (messages.filter (fun m => m.role = MessageRole.user)).map
      (fun m => (pyFirstLine m.content).take 80)
  let fallback :=
    if user_topics.isEmpty then ""
    else "Temas: " ++ String.intercalate "; " (user_topics.take 3)
  if strTruthy existing then existing.getD "" ++ " | " ++ fallback else fallback

/-- A small concrete configuration used by the concrete evaluations: one
token per character, one overhead token per message, a window of 8 tokens,
nothing reserved, `keep_recent_messages = 1`, empty prompts. -/
def cm0 : ContextManager :=
  { max_tokens := 8, reserved_output := 0, tokens_per_char := 1, keep_recent := 1,
    message_overhead := 1, system_prompt := "", summarizer_prompt := "" }

/-- A configuration whose estimation ratio is one token per two characters. -/
def cm9 : ContextManager :=
  { max_tokens := 100, reserved_output := 10, tokens_per_char := 1/2, keep_recent := 6,
    message_overhead := 3, system_prompt := "sys", summarizer_prompt := "sum" }

/-- An LLM client whose generate call raises on every prompt. -/
def genRaise : String → Except Unit String := fun _ => Except.error ()

/-- A batch with four user-authored messages whose first lines differ. -/
def msgs8 : List LLMMessage :=
  [{ role := MessageRole.user, content := "a" },
   { role := MessageRole.user, content := "b" },
   { role := MessageRole.assistant, content := "x" },
   { role := MessageRole.user, content := "c" },
   { role := MessageRole.user, content := "d" }]

attribute [local semireducible] Rat.mul Rat.inv Rat.add Rat.sub

theorem pyInt_of_nonneg (q : Rat) (h : 0 ≤ q) : pyInt q = ⌊q⌋ := by
  unfold pyInt
  rw [if_neg (not_lt.mpr h)]
  rfl

theorem dropThroughId_eq_none (uid : Nat) (l : List Message)
    (h : uid ∉ l.map Message.id) : dropThroughId uid l = none := by
  induction l with
  | nil => rfl
  | cons m rest ih =>
    simp only [List.map_cons, List.mem_cons, not_or] at h
    unfold dropThroughId
    rw [if_neg (fun hc => h.1 hc.symm)]
    exact ih h.2

theorem dropThroughId_append (pre post : List Message) (m : Message)
    (h : m.id ∉ pre.map Message.id) :
    dropThroughId m.id (pre ++ m :: post) = some post := by
  induction pre with
  | nil => simp [dropThroughId]
  | cons p rest ih =>
    simp only [List.map_cons, List.mem_cons, not_or] at h
    show dropThroughId m.id (p :: (rest ++ m :: post)) = some post
    unfold dropThroughId
    rw [if_neg (fun hc => h.1 hc.symm)]
    exact ih h.2

/-- Claim C4: every budget produced by the calculator has `tools_tokens = 0`;
its `total_used` is exactly the sum of the five component estimates; the
history component is the sum over history messages of the content estimate
plus the per-message overhead; the new-message component is the estimate plus
overhead; the summary and rag components are `0` for null-or-empty text and
estimate plus overhead otherwise; and `is_over_budget` holds exactly when
`total_used` exceeds `max_tokens - reserved_output`. -/
theorem budget_calculation_exact (cm : ContextManager) (history : List LLMMessage)
    (new_message : String) (summary rag_context : Option String) :
    let b := cm.calculate_budget history new_message summary rag_context
    b.tools_tokens = 0
    ∧ b.total_used = b.system_prompt_tokens + b.summary_tokens + b.history_tokens
        + b.new_message_tokens + b.rag_context_tokens
    ∧ b.system_prompt_tokens = cm.estimate_tokens (some cm.system_prompt)
    ∧ b.history_tokens
        = (history.map (fun m => cm.estimate_tokens (some m.content) + cm.message_overhead)).sum
    ∧ b.new_message_tokens = cm.estimate_tokens (some new_message) + cm.message_overhead
    ∧ b.summary_tokens
        = (if summary.getD "" = "" then 0 else cm.estimate_tokens summary + cm.message_overhead)
    ∧ b.rag_context_tokens
        = (if rag_context.getD "" = "" then 0
           else cm.estimate_tokens rag_context + cm.message_overhead)
    ∧ b.is_over_budget = decide (b.max_tokens - b.reserved_output < b.total_used) := by
  refine ⟨rfl, ?_, rfl, rfl, rfl, ?_, ?_, rfl⟩
  · show ContextBudget.total_used _ = _
    simp [ContextBudget.total_used, ContextManager.calculate_budget]
  · show (if strTruthy summary then _ else _) = _
    cases summary with
    | none => rfl
    | some s =>
      by_cases hs : s = "" <;> simp [strTruthy, hs]
  · show (if strTruthy rag_context then _ else _) = _
    cases rag_context with
    | none => rfl
    | some s =>
      by_cases hs : s = "" <;> simp [strTruthy, hs]

/-- Claim C9: token estimation of null or empty text is `0`; for a
nonnegative configured ratio it equals the floor of the character count times
the ratio and is monotonically non-decreasing in the text length. -/
theorem estimate_tokens_floor_monotone (cm : ContextManager) (s t : String)
    (h : 0 ≤ cm.tokens_per_char) (hst : s.length ≤ t.length) :
    cm.estimate_tokens none = 0
    ∧ cm.estimate_tokens (some "") = 0
    ∧ cm.estimate_tokens (some s) = ⌊(s.length : Rat) * cm.tokens_per_char⌋
    ∧ cm.estimate_tokens (some s) ≤ cm.estimate_tokens (some t) := by
  have hfloor : ∀ u : String,
      cm.estimate_tokens (some u) = ⌊(u.length : Rat) * cm.tokens_per_char⌋ := by
    intro u
    show (if u = "" then 0 else pyInt ((u.length : Rat) * cm.tokens_per_char)) = _
    by_cases hu : u = ""
    · subst hu
      have : ("".length : Rat) = 0 := by norm_num [String.length]
      simp [this]
    · rw [if_neg hu, pyInt_of_nonneg _ (mul_nonneg (by positivity) h)]
  refine ⟨rfl, by simpa using hfloor "", hfloor s, ?_⟩
  rw [hfloor s, hfloor t]
  exact Int.floor_le_floor
    (mul_le_mul_of_nonneg_right (by exact_mod_cast hst) h)

/-- Witness for claim C9 at a concrete configuration and concrete strings. -/
theorem estimate_tokens_floor_monotone_witness :
    ((0 : Rat) ≤ cm9.tokens_per_char ∧ "ab".length ≤ "abcd".length)
    ∧ (cm9.estimate_tokens none = 0
       ∧ cm9.estimate_tokens (some "") = 0
       ∧ cm9.estimate_tokens (some "ab") = ⌊(("ab".length : Rat)) * cm9.tokens_per_char⌋
       ∧ cm9.estimate_tokens (some "ab") ≤ cm9.estimate_tokens (some "abcd")) :=
  ⟨⟨by norm_num [cm9], by decide⟩,
    estimate_tokens_floor_monotone cm9 "ab" "abcd" (by norm_num [cm9]) (by decide)⟩

/-- Claim C5: on every input whose computed budget is not over budget,
`build_context` returns, without raising, exactly the synthetic summary
system message when the summary is present, then the synthetic rag-context
system message when present, then the unsummarized history unchanged and in
order — without the new user message — with the computed budget,
`needs_summary_update = false` and null summary fields. -/
theorem build_context_within_budget (cm : ContextManager) (gen : String → Except Unit String)
    (unsummarized : UnsummarizedMessages) (new_message : String)
    (current_summary rag_context : Option String)
    (h : (cm.calculate_budget unsummarized.messages new_message current_summary
            rag_context).is_over_budget = false) :
    cm.build_context gen unsummarized new_message current_summary rag_context =
      Except.ok
        { messages :=
            (if strTruthy current_summary then
              [LLMMessage.mkSystem ("[Conversation summary]\n" ++ current_summary.getD "")]
             else [])
            ++ (if strTruthy rag_context then
              [LLMMessage.mkSystem ("[Document context]\n" ++ rag_context.getD "")]
             else [])
            ++ unsummarized.messages
          budget := some (cm.calculate_budget unsummarized.messages new_message
            current_summary rag_context)
          needs_summary_update := false
          new_summary := none
          summary_up_to_message_id := none } := by
  simp only [ContextManager.build_context, h]
  rfl

/-- Witness for claim C5: a one-message history with both a summary and a
rag context, within budget; the result injects both synthetic system
messages before the untouched history. -/
theorem build_context_within_budget_witness :
    (cm0.calculate_budget [{ role := MessageRole.user, content := "a" }] "b"
        (some "S") (some "R")).is_over_budget = false
    ∧ cm0.build_context genRaise
        { messages := [{ role := MessageRole.user, content := "a" }], message_ids := [1] }
        "b" (some "S") (some "R") =
      Except.ok
        { messages :=
            [{ role := MessageRole.system, content := "[Conversation summary]\nS" },
             { role := MessageRole.system, content := "[Document context]\nR" },
             { role := MessageRole.user, content := "a" }]
          budget := some (cm0.calculate_budget [{ role := MessageRole.user, content := "a" }]
            "b" (some "S") (some "R"))
          needs_summary_update := false
          new_summary := none
          summary_up_to_message_id := none } :=
  ⟨by decide,
    build_context_within_budget cm0 genRaise
      { messages := [{ role := MessageRole.user, content := "a" }], message_ids := [1] }
      "b" (some "S") (some "R") (by decide)⟩

/-- Claim C6: with a null pointer the extractor returns every message as a
role/content pair with its ID, in order; with a pointer equal to the ID of a
message of the sequence (the first such message) it returns exactly the
strict suffix after that message, in order, with the matching IDs. -/
theorem extract_unsummarized_suffix (all_messages pre post : List Message) (m : Message)
    (hfirst : m.id ∉ pre.map Message.id) :
    extract_unsummarized all_messages none =
      { messages := all_messages.map (fun x => { role := x.role, content := x.content })
        message_ids := all_messages.map Message.id }
    ∧ extract_unsummarized (pre ++ m :: post) (some m.id) =
      { messages := post.map (fun x => { role := x.role, content := x.content })
        message_ids := post.map Message.id } := by
  refine ⟨rfl, ?_⟩
  have hd := dropThroughId_append pre post m hfirst
  simp only [extract_unsummarized, hd, Option.getD_some]

/-- Witness for claim C6 on a concrete five-message sequence with the
pointer at the third message. -/
theorem extract_unsummarized_suffix_witness :
    (Message.id { id := 3, role := MessageRole.user, content := "c" } ∉
      ([{ id := 1, role := MessageRole.user, content := "a" },
        { id := 2, role := MessageRole.assistant, content := "b" }] : List Message).map
        Message.id)
    ∧ (extract_unsummarized
        [{ id := 1, role := MessageRole.user, content := "a" },
         { id := 2, role := MessageRole.assistant, content := "b" },
         { id := 3, role := MessageRole.user, content := "c" },
         { id := 4, role := MessageRole.assistant, content := "d" },
         { id := 5, role := MessageRole.user, content := "e" }] none =
        { messages := [{ role := MessageRole.user, content := "a" },
                       { role := MessageRole.assistant, content := "b" },
                       { role := MessageRole.user, content := "c" },
                       { role := MessageRole.assistant, content := "d" },
                       { role := MessageRole.user, content := "e" }]
          message_ids := [1, 2, 3, 4, 5] }
      ∧ extract_unsummarized
        ([{ id := 1, role := MessageRole.user, content := "a" },
          { id := 2, role := MessageRole.assistant, content := "b" }]
          ++ { id := 3, role := MessageRole.user, content := "c" } ::
            [{ id := 4, role := MessageRole.assistant, content := "d" },
             { id := 5, role := MessageRole.user, content := "e" }])
        (some (Message.id { id := 3, role := MessageRole.user, content := "c" })) =
        { messages := [{ role := MessageRole.assistant, content := "d" },
                       { role := MessageRole.user, content := "e" }]
          message_ids := [4, 5] }) :=
  ⟨by decide,
    extract_unsummarized_suffix
      [{ id := 1, role := MessageRole.user, content := "a" },
       { id := 2, role := MessageRole.assistant, content := "b" },
       { id := 3, role := MessageRole.user, content := "c" },
       { id := 4, role := MessageRole.assistant, content := "d" },
       { id := 5, role := MessageRole.user, content := "e" }]
      [{ id := 1, role := MessageRole.user, content := "a" },
       { id := 2, role := MessageRole.assistant, content := "b" }]
      [{ id := 4, role := MessageRole.assistant, content := "d" },
       { id := 5, role := MessageRole.user, content := "e" }]
      { id := 3, role := MessageRole.user, content := "c" } (by decide)⟩

/-- Claim C7: when the non-null pointer matches no message ID, the extractor
does not raise and returns all messages of the sequence. -/
theorem extract_unsummarized_missing_id (all_messages : List Message) (uid : Nat)
    (h : uid ∉ all_messages.map Message.id) :
    extract_unsummarized all_messages (some uid) =
      { messages := all_messages.map (fun x => { role := x.role, content := x.content })
        message_ids := all_messages.map Message.id } := by
  have hd := dropThroughId_eq_none uid all_messages h
  simp only [extract_unsummarized, hd, Option.getD_none]

/-- Witness for claim C7: five messages and an absent ID; all five come
back, not an empty list. -/
theorem extract_unsummarized_missing_id_witness :
    ((99 : Nat) ∉
      ([{ id := 11, role := MessageRole.user, content := "p" },
        { id := 12, role := MessageRole.assistant, content := "q" },
        { id := 13, role := MessageRole.user, content := "r" },
        { id := 14, role := MessageRole.assistant, content := "s" },
        { id := 15, role := MessageRole.user, content := "t" }] : List Message).map Message.id)
    ∧ extract_unsummarized
        [{ id := 11, role := MessageRole.user, content := "p" },
         { id := 12, role := MessageRole.assistant, content := "q" },
         { id := 13, role := MessageRole.user, content := "r" },
         { id := 14, role := MessageRole.assistant, content := "s" },
         { id := 15, role := MessageRole.user, content := "t" }] (some 99) =
      { messages := [{ role := MessageRole.user, content := "p" },
                     { role := MessageRole.assistant, content := "q" },
                     { role := MessageRole.user, content := "r" },
                     { role := MessageRole.assistant, content := "s" },
                     { role := MessageRole.user, content := "t" }]
        message_ids := [11, 12, 13, 14, 15] } :=
  ⟨by decide,
    extract_unsummarized_missing_id
      [{ id := 11, role := MessageRole.user, content := "p" },
       { id := 12, role := MessageRole.assistant, content := "q" },
       { id := 13, role := MessageRole.user, content := "r" },
       { id := 14, role := MessageRole.assistant, content := "s" },
       { id := 15, role := MessageRole.user, content := "t" }] 99 (by decide)⟩

set_option maxRecDepth 65536 in
/-- Claim C8 as stated is false at a concrete input: with four user-authored
messages whose first lines are "a", "b", "c", "d" and a raising LLM, the
code's fallback keeps only the first three topics, so it is not the summary
built from the first line of each user-authored message in the batch. -/
theorem fallback_counterexample :
    cm0.generate_summary genRaise msgs8 none = "Temas: a; b; c"
    ∧ claimFallbackAllUsers msgs8 none = "Temas: a; b; c; d"
    ∧ cm0.generate_summary genRaise msgs8 none ≠ claimFallbackAllUsers msgs8 none := by
  refine ⟨by decide, by decide, fun hcontra => ?_⟩
  rw [show cm0.generate_summary genRaise msgs8 none = "Temas: a; b; c" by decide,
    show claimFallbackAllUsers msgs8 none = "Temas: a; b; c; d" by decide] at hcontra
  exact absurd hcontra (by decide)

/-- Claim C8 amended: whenever the LLM call raises during summary
generation, the generator does not propagate the error and returns the
deterministic fallback built from the first line (truncated to 80
characters) of each of at most the first three user-authored messages in
the batch, joined with the separator, appended to the existing summary when
one is present. -/
theorem generate_summary_fallback_first_three (cm : ContextManager)
    (gen : String → Except Unit String) (messages : List LLMMessage)
    (existing : Option String)
    (hraise : gen (summaryPrompt cm messages existing) = Except.error ()) :
    cm.generate_summary gen messages existing = fallbackFirstThree messages existing := by
  unfold ContextManager.generate_summary
  rw [hraise]
  rfl

/-- Witness for the amended claim C8 at a concrete batch with an
always-raising LLM. -/
theorem generate_summary_fallback_first_three_witness :
    genRaise (summaryPrompt cm0 msgs8 (some "old")) = Except.error ()
    ∧ cm0.generate_summary genRaise msgs8 (some "old") =
        fallbackFirstThree msgs8 (some "old") :=
  ⟨rfl, generate_summary_fallback_first_three cm0 genRaise msgs8 (some "old") rfl⟩

/-- Claim C1 fails on the code: at a concrete over-budget input that takes
the summarization path, with an LLM whose generate call always raises,
`build_context` raises a `TypeError` (the reducer passes four arguments to
the three-parameter `_assemble_messages`) instead of returning a
`ContextResult` with a non-null `new_summary`. -/
theorem build_context_summarization_path_raises :
    cm0.keep_recent + 2 ≤ 3
    ∧ (cm0.calculate_budget
        [{ role := MessageRole.user, content := "aaaa" },
         { role := MessageRole.assistant, content := "bbbb" },
         { role := MessageRole.user, content := "cc" }] "zz" none none).is_over_budget = true
    ∧ cm0.build_context genRaise
        { messages := [{ role := MessageRole.user, content := "aaaa" },
                       { role := MessageRole.assistant, content := "bbbb" },
                       { role := MessageRole.user, content := "cc" }]
          message_ids := [1, 2, 3] } "zz" none none = Except.error PyErr.typeError :=
  ⟨by decide, rfl, rfl⟩

/-- Claim C2 fails on the code: at a concrete over-budget input with history
length at least `keep_recent + 2`, the reducer raises a `TypeError` while
building its result (four arguments passed to the three-parameter
`_assemble_messages`), so none of the described fields is returned. -/
theorem reduce_context_summarization_raises :
    cm0.keep_recent + 2 ≤ 4
    ∧ (cm0.calculate_budget
        [{ role := MessageRole.user, content := "aaa" },
         { role := MessageRole.assistant, content := "bbb" },
         { role := MessageRole.user, content := "ccc" },
         { role := MessageRole.assistant, content := "ddd" }] "m" none none).is_over_budget
        = true
    ∧ cm0.build_context genRaise
        { messages := [{ role := MessageRole.user, content := "aaa" },
                       { role := MessageRole.assistant, content := "bbb" },
                       { role := MessageRole.user, content := "ccc" },
                       { role := MessageRole.assistant, content := "ddd" }]
          message_ids := [21, 22, 23, 24] } "m" none none = Except.error PyErr.typeError :=
  ⟨by decide, rfl, rfl⟩

/-- Claim C3 fails on the code: at a concrete over-budget input with history
length below `keep_recent + 2`, the truncation branch computes the fitted
prefix but then raises a `TypeError` (four arguments passed to the
three-parameter `_assemble_messages`) instead of returning the truncated
messages with `needs_summary_update = false`. -/
theorem reduce_context_truncation_raises :
    2 < cm0.keep_recent + 2
    ∧ (cm0.calculate_budget
        [{ role := MessageRole.user, content := "aaaaaaaaaa" },
         { role := MessageRole.assistant, content := "bbbbbbbbbb" }] "n" none none).is_over_budget
        = true
    ∧ cm0.build_context genRaise
        { messages := [{ role := MessageRole.user, content := "aaaaaaaaaa" },
                       { role := MessageRole.assistant, content := "bbbbbbbbbb" }]
          message_ids := [31, 32] } "n" none none = Except.error PyErr.typeError :=
  ⟨by decide, rfl, rfl⟩

/-- Claim C10 is broken by the code on the truncation path: the within-budget
path does return `needs_summary_update = false` with null summary fields, but
a concrete over-budget truncation input makes `build_context` raise a
`TypeError` instead of returning any `ContextResult` at all. -/
theorem context_result_flag_invariant_status :
    cm0.build_context genRaise
      { messages := [{ role := MessageRole.user, content := "a" }], message_ids := [7] }
      "b" none none =
      Except.ok
        { messages := [{ role := MessageRole.user, content := "a" }]
          budget := some (cm0.calculate_budget [{ role := MessageRole.user, content := "a" }]
            "b" none none)
          needs_summary_update := false
          new_summary := none
          summary_up_to_message_id := none }
    ∧ 2 < cm0.keep_recent + 2
    ∧ (cm0.calculate_budget
        [{ role := MessageRole.user, content := "cccccccccc" },
         { role := MessageRole.assistant, content := "dddddddddd" }] "e" none none).is_over_budget
        = true
    ∧ cm0.build_context genRaise
        { messages := [{ role := MessageRole.user, content := "cccccccccc" },
                       { role := MessageRole.assistant, content := "dddddddddd" }]
          message_ids := [8, 9] } "e" none none = Except.error PyErr.typeError :=
  ⟨rfl, by decide, rfl, rfl⟩

end CorpoAI
